import Mathlib

/-!
Verification of the PR2 fingertip-sensor converter node (`scripts/convert_pfs.py`).

The node subscribes to a composite `PR2FingertipSensor` message per
(gripper, fingertip) and republishes derived channels: per-sensor proximity
distance and single-point cloud, per-sensor force wrench, a per-board average
wrench, and one IMU message for the front board.

Shallow embedding conventions:
- Python floats are modelled as real numbers; `float('inf')` becomes `⊤ : EReal`.
- The calibration parameter dictionary `self.pfs_params[gripper][fingertip]`
  becomes a total function `String → String → FingerParams`.
- Each `publisher.publish(m)` call is modelled as appending an `Output` event
  (publisher identity plus the published message snapshot) to a list, in
  program order.
- `cb` mutates its input message (`publish_imu` scales `msg.imu` in place), so
  it is embedded as a state-passing function returning the post-state of the
  message together with the emitted outputs.
-/

/-- The five PFS boards, `self.parts` in `ConvertPFS.__init__`. -/
inductive PfsPart where
  | pfs_a_front
  | pfs_b_top
  | pfs_b_back
  | pfs_b_left
  | pfs_b_right
deriving DecidableEq

/-- Per-(gripper, fingertip) calibration table: the four coefficient arrays
indexed by global sensor index, from rosparam `/pfs`. -/
structure FingerParams where
  proximity_a : ℕ → ℝ
  proximity_b : ℕ → ℝ
  preload : ℕ → ℝ
  sensitivity : ℕ → ℝ

/-- The whole calibration store `self.pfs_params`, keyed by gripper then
fingertip name. -/
def PfsParams : Type := String → String → FingerParams

/-- `self.grippers`. -/
def grippers : List String := ["l_gripper", "r_gripper"]

/-- `self.fingertips`. -/
def fingertips : List String := ["l_fingertip", "r_fingertip"]

/-- `self.parts`, in source order. -/
def parts : List PfsPart :=
  [PfsPart.pfs_a_front, PfsPart.pfs_b_top, PfsPart.pfs_b_back, PfsPart.pfs_b_left, PfsPart.pfs_b_right]

/-- The board name string used in topic and frame names. -/
def partName : PfsPart → String
  | PfsPart.pfs_a_front => "pfs_a_front"
  | PfsPart.pfs_b_top => "pfs_b_top"
  | PfsPart.pfs_b_back => "pfs_b_back"
  | PfsPart.pfs_b_left => "pfs_b_left"
  | PfsPart.pfs_b_right => "pfs_b_right"

/-- `ConvertPFS.sensor_num`: number of sensors on a board. -/
def sensor_num (part : PfsPart) : ℕ :=
  if part = PfsPart.pfs_a_front then 8 else 4

/-- `ConvertPFS.sensor_index`: global index (0–23) of sensor `i` of `part`. -/
def sensor_index (part : PfsPart) (i : ℕ) : ℕ :=
  match part with
  | PfsPart.pfs_a_front => i
  | PfsPart.pfs_b_top => 8 + i
  | PfsPart.pfs_b_back => 12 + i
  | PfsPart.pfs_b_left => 16 + i
  | PfsPart.pfs_b_right => 20 + i

/-- All (board, local index) pairs, boards in source order, indices in
`[0, sensor_num board)`. -/
def all_board_sensor_pairs : List (PfsPart × ℕ) :=
  parts.flatMap fun p => (List.range (sensor_num p)).map fun i => (p, i)

/-- `ConvertPFS.proximity_to_distance`: convert a raw proximity reading to a
distance in meters, `⊤` (Python `float('inf')`) when the sensor is
uncalibrated (`a == 0`). -/
noncomputable def proximity_to_distance (pfs : PfsParams) (proximity : ℝ)
    (gripper fingertip : String) (part : PfsPart) (i : ℕ) : EReal :=
  let index := sensor_index part i
  let a := (pfs gripper fingertip).proximity_a index
  let b := (pfs gripper fingertip).proximity_b index
  if a = 0 then
    (⊤ : EReal)
  else
    ((Real.sqrt (a / max 0.1 (proximity - b)) : ℝ) : EReal)

/-- A ROS 3-vector (`geometry_msgs/Vector3`). -/
structure V3 where
  x : ℝ
  y : ℝ
  z : ℝ

/-- A ROS header: timestamp plus frame id. -/
structure HeaderMsg where
  stamp : ℕ
  frame_id : String

/-- The relevant fields of `sensor_msgs/Imu`: its own header and the two
vectors the node touches. -/
structure ImuMsg where
  header : HeaderMsg
  angular_velocity : V3
  linear_acceleration : V3

/-- The incoming `PR2FingertipSensor` message: header, 24 proximity readings,
24 force readings, one IMU block. -/
structure PFSMsg where
  header : HeaderMsg
  proximity : ℕ → ℝ
  force : ℕ → ℝ
  imu : ImuMsg

/-- One publish event: the publisher identity (gripper, fingertip, board,
and local sensor index for per-sensor channels) together with the message
content actually serialized at publish time. -/
inductive Output where
  | proximityDistance (gripper fingertip : String) (part : PfsPart) (i : ℕ) (data : EReal)
  | proximityCloud (gripper fingertip : String) (part : PfsPart) (i : ℕ)
      (header : HeaderMsg) (point : EReal × EReal × EReal)
  | force (gripper fingertip : String) (part : PfsPart) (i : ℕ)
      (header : HeaderMsg) (forceZ : ℝ)
  | wrench (gripper fingertip : String) (part : PfsPart)
      (header : HeaderMsg) (forceZ : ℝ)
  | imu (gripper fingertip : String) (part : PfsPart) (data : ImuMsg)

/-- The frame-id base `'/' + gripper + '_' + fingertip + '_' + part`. -/
def frameBase (gripper fingertip : String) (part : PfsPart) : String :=
  "/" ++ gripper ++ "_" ++ fingertip ++ "_" ++ partName part

/-- `ConvertPFS.publish_proximity`: per sensor, compute the distance and, when
it is below 0.1 m, publish the `Float32` distance and the one-point cloud. -/
noncomputable def publish_proximity (pfs : PfsParams) (msg : PFSMsg)
    (gripper fingertip : String) : List Output :=
  parts.flatMap fun part =>
    (List.range (sensor_num part)).flatMap fun i =>
      let frame_id := frameBase gripper fingertip part ++ "_" ++ toString i
      let index := sensor_index part i
      let distance := proximity_to_distance pfs (msg.proximity index) gripper fingertip part i
      if distance < (((0.1 : ℝ)) : EReal) then
        [Output.proximityDistance gripper fingertip part i distance,
         Output.proximityCloud gripper fingertip part i
           ⟨msg.header.stamp, frame_id⟩ ((0 : ℝ), (0 : ℝ), distance)]
      else
        []

/-- The per-sensor calibrated force `0.105 * (raw - preload) / sensitivity`
computed at line 200 of `publish_force`. -/
noncomputable def force_at (pfs : PfsParams) (msg : PFSMsg) (gripper fingertip : String)
    (part : PfsPart) (i : ℕ) : ℝ :=
  0.105 * (msg.force (sensor_index part i) - (pfs gripper fingertip).preload (sensor_index part i))
    / (pfs gripper fingertip).sensitivity (sensor_index part i)

/-- The body of `publish_force`'s outer loop for one board: one wrench per
force sensor, then the board wrench carrying the accumulated
`average_force = Σ force_i / sensor_num`. -/
noncomputable def board_force_outputs (pfs : PfsParams) (msg : PFSMsg)
    (gripper fingertip : String) (part : PfsPart) : List Output :=
  let n := sensor_num part
  ((List.range n).map fun i =>
    Output.force gripper fingertip part i
      ⟨msg.header.stamp, frameBase gripper fingertip part ++ "_" ++ toString i⟩
      (force_at pfs msg gripper fingertip part i))
  ++ [Output.wrench gripper fingertip part
        ⟨msg.header.stamp, frameBase gripper fingertip part⟩
        (((List.range n).map fun i => force_at pfs msg gripper fingertip part i / (n : ℝ)).sum)]

/-- `ConvertPFS.publish_force`: per board, publish one wrench per force sensor
and then one board wrench with the board's average force. -/
noncomputable def publish_force (pfs : PfsParams) (msg : PFSMsg)
    (gripper fingertip : String) : List Output :=
  parts.flatMap fun part => board_force_outputs pfs msg gripper fingertip part

/-- `ConvertPFS.publish_imu`: scale the gyro and acceleration of `msg.imu`
in place by 0.001 and publish the mutated `msg.imu` on the front board's imu
channel. Returns the post-state of `msg` and the emitted output. -/
noncomputable def publish_imu (msg : PFSMsg) (gripper fingertip : String) : PFSMsg × List Output :=
  let imu' : ImuMsg :=
    { header := msg.imu.header
      angular_velocity :=
        ⟨msg.imu.angular_velocity.x * 0.001,
         msg.imu.angular_velocity.y * 0.001,
         msg.imu.angular_velocity.z * 0.001⟩
      linear_acceleration :=
        ⟨msg.imu.linear_acceleration.x * 0.001,
         msg.imu.linear_acceleration.y * 0.001,
         msg.imu.linear_acceleration.z * 0.001⟩ }
  let msg' : PFSMsg := { msg with imu := imu' }
  (msg', [Output.imu gripper fingertip PfsPart.pfs_a_front msg'.imu])

/-- `ConvertPFS.cb`: process one raw sample — proximity, then force, then imu.
Returns the (possibly mutated) message post-state and all outputs in publish
order. -/
noncomputable def cb (pfs : PfsParams) (msg : PFSMsg)
    (gripper fingertip : String) : PFSMsg × List Output :=
  let prox := publish_proximity pfs msg gripper fingertip
  let forceOuts := publish_force pfs msg gripper fingertip
  let p := publish_imu msg gripper fingertip
  (p.1, prox ++ forceOuts ++ p.2)

/-- A sample calibration table used to instantiate universally quantified
theorems at concrete inputs. -/
noncomputable def samplePfs : PfsParams := fun _ _ =>
  { proximity_a := fun _ => 0.01
    proximity_b := fun _ => 5
    preload := fun _ => 500
    sensitivity := fun _ => 3.7 }

/-- A sample raw message used to instantiate universally quantified theorems
at concrete inputs. Its body stamp is 7 while its embedded imu header stamp
is 1. -/
noncomputable def sampleMsg : PFSMsg :=
  { header := ⟨7, "finger"⟩
    proximity := fun _ => 10
    force := fun _ => 2000
    imu := ⟨⟨1, "imu_link"⟩, ⟨2, 3, 4⟩, ⟨5, 6, 7⟩⟩ }

/-- Recognizer for imu publish events. -/
def isImuOut : Output → Bool
  | Output.imu _ _ _ _ => true
  | _ => false

/-- Recognizer for the force-channel events (per-sensor force wrench or board
wrench) of one given board. -/
def isOfBoard (part : PfsPart) : Output → Bool
  | Output.force _ _ p _ _ _ => decide (p = part)
  | Output.wrench _ _ p _ _ => decide (p = part)
  | _ => false

/-- The timestamp carried by a published message, when its ROS type has one:
`std_msgs/Float32` (the distance scalar) has no header at all, the other
message types carry their header's stamp. -/
def stampOf : Output → Option ℕ
  | Output.proximityDistance _ _ _ _ _ => none
  | Output.proximityCloud _ _ _ _ h _ => some h.stamp
  | Output.force _ _ _ _ h _ => some h.stamp
  | Output.wrench _ _ _ h _ => some h.stamp
  | Output.imu _ _ _ d => some d.header.stamp

/-- The timestamp each output actually carries, per the amended claim: the
cloud and both wrench kinds carry the sample's stamp, the distance scalar
carries none, and the imu message keeps the raw sample's embedded imu
header stamp. -/
def expectedStamp (msg : PFSMsg) : Output → Option ℕ
  | Output.proximityDistance _ _ _ _ _ => none
  | Output.imu _ _ _ _ => some msg.imu.header.stamp
  | _ => some msg.header.stamp

/-- The `sensors` list of `ConvertPFS.__init__`, in source order. -/
def sensorKinds : List String :=
  ["proximity_distance", "proximity_cloud", "wrench", "force", "imu"]

/-- A board-level topic name, `'/pfs/{}/{}/{}/{}'.format(...)`. -/
def topicBoard (gripper fingertip : String) (part : PfsPart) (kind : String) : String :=
  "/pfs/" ++ gripper ++ "/" ++ fingertip ++ "/" ++ partName part ++ "/" ++ kind

/-- A per-sensor topic name, `'/pfs/{}/{}/{}/{}/{}'.format(...)`. -/
def topicSensor (gripper fingertip : String) (part : PfsPart) (kind : String) (i : ℕ) : String :=
  topicBoard gripper fingertip part kind ++ "/" ++ toString i

/-- All output channel names registered by `ConvertPFS.__init__`, following
its loop structure: per gripper, fingertip, board and sensor kind, skip imu
on non-front boards, register one board-level channel for imu and wrench and
one channel per local sensor index for the per-sensor kinds. -/
def registeredChannels : List String :=
  grippers.flatMap fun gripper =>
    fingertips.flatMap fun fingertip =>
      parts.flatMap fun part =>
        sensorKinds.flatMap fun sensor =>
          if sensor = "imu" ∧ part ≠ PfsPart.pfs_a_front then []
          else
            (if sensor = "imu" ∨ sensor = "wrench" then
              [topicBoard gripper fingertip part sensor]
            else []) ++
            (if sensor = "proximity_distance" ∨ sensor = "proximity_cloud" ∨ sensor = "force" then
              (List.range (sensor_num part)).map fun i =>
                topicSensor gripper fingertip part sensor i
            else [])

/-- C5: `sensor_num` is 8 for the front board and 4 otherwise, and
(board, local index) ↦ global index, over local indices below the board's
sensor count, is injective with image exactly {0, ..., 23}; the per-board
offsets are front 0, top 8, back 12, left 16, right 20. -/
theorem sensor_topology_spec :
    (∀ p : PfsPart, sensor_num p = if p = PfsPart.pfs_a_front then 8 else 4) ∧
    (all_board_sensor_pairs.map fun x => sensor_index x.1 x.2).Nodup ∧
    (all_board_sensor_pairs.map fun x => sensor_index x.1 x.2).toFinset = Finset.range 24 ∧
    (∀ i : ℕ, sensor_index PfsPart.pfs_a_front i = 0 + i ∧
      sensor_index PfsPart.pfs_b_top i = 8 + i ∧
      sensor_index PfsPart.pfs_b_back i = 12 + i ∧
      sensor_index PfsPart.pfs_b_left i = 16 + i ∧
      sensor_index PfsPart.pfs_b_right i = 20 + i) := by
  refine ⟨fun _ => rfl, by decide, by decide, fun i => ?_⟩
  simp [sensor_index]

/-- C1: for every raw reading and valid local index,
`proximity_to_distance` returns `⊤` (+infinity) when the calibration
coefficient `a` at the global index is 0, and otherwise
`√(a / max 0.1 (raw - b))` with `a`, `b` the `proximity_a`/`proximity_b`
coefficients at the global index. -/
theorem proximity_to_distance_spec (pfs : PfsParams) (raw : ℝ)
    (gripper fingertip : String) (part : PfsPart) (i : ℕ)
    (hi : i < sensor_num part) :
    proximity_to_distance pfs raw gripper fingertip part i =
      if (pfs gripper fingertip).proximity_a (sensor_index part i) = 0 then
        (⊤ : EReal)
      else
        ((Real.sqrt ((pfs gripper fingertip).proximity_a (sensor_index part i) /
          max 0.1 (raw - (pfs gripper fingertip).proximity_b (sensor_index part i))) : ℝ) : EReal) :=
  rfl

/-- Witness for C1 at a concrete input. -/
theorem proximity_to_distance_spec_witness :
    0 < sensor_num PfsPart.pfs_a_front ∧
    proximity_to_distance samplePfs 10 "l_gripper" "l_fingertip" PfsPart.pfs_a_front 0 =
      if (samplePfs "l_gripper" "l_fingertip").proximity_a (sensor_index PfsPart.pfs_a_front 0) = 0 then
        (⊤ : EReal)
      else
        ((Real.sqrt ((samplePfs "l_gripper" "l_fingertip").proximity_a (sensor_index PfsPart.pfs_a_front 0) /
          max 0.1 (10 - (samplePfs "l_gripper" "l_fingertip").proximity_b (sensor_index PfsPart.pfs_a_front 0))) : ℝ) : EReal) :=
  ⟨by decide,
   proximity_to_distance_spec samplePfs 10 "l_gripper" "l_fingertip" PfsPart.pfs_a_front 0 (by decide)⟩

/-- C8: whenever the calibration coefficient `a` at the sensor's global index
is nonzero and nonnegative, the distance computation never faults: the
denominator `max 0.1 (raw - b)` is at least 0.1 and the argument of the
square root is nonnegative, and `proximity_to_distance` takes the finite
branch. -/
theorem distance_computation_safe (pfs : PfsParams) (raw : ℝ)
    (gripper fingertip : String) (part : PfsPart) (i : ℕ)
    (ha : (pfs gripper fingertip).proximity_a (sensor_index part i) ≠ 0)
    (ha' : 0 ≤ (pfs gripper fingertip).proximity_a (sensor_index part i)) :
    0.1 ≤ max (0.1 : ℝ) (raw - (pfs gripper fingertip).proximity_b (sensor_index part i)) ∧
    0 ≤ (pfs gripper fingertip).proximity_a (sensor_index part i) /
      max 0.1 (raw - (pfs gripper fingertip).proximity_b (sensor_index part i)) ∧
    proximity_to_distance pfs raw gripper fingertip part i =
      ((Real.sqrt ((pfs gripper fingertip).proximity_a (sensor_index part i) /
        max 0.1 (raw - (pfs gripper fingertip).proximity_b (sensor_index part i))) : ℝ) : EReal) := by
  refine ⟨le_max_left _ _, div_nonneg ha' ?_, ?_⟩
  · exact le_trans (by norm_num) (le_max_left (0.1 : ℝ) _)
  · simp [proximity_to_distance, ha]

/-- Witness for C8 at a concrete input. -/
theorem distance_computation_safe_witness :
    (samplePfs "l_gripper" "l_fingertip").proximity_a (sensor_index PfsPart.pfs_a_front 0) ≠ 0 ∧
    (0.1 ≤ max (0.1 : ℝ) (10 - (samplePfs "l_gripper" "l_fingertip").proximity_b (sensor_index PfsPart.pfs_a_front 0)) ∧
     0 ≤ (samplePfs "l_gripper" "l_fingertip").proximity_a (sensor_index PfsPart.pfs_a_front 0) /
       max 0.1 (10 - (samplePfs "l_gripper" "l_fingertip").proximity_b (sensor_index PfsPart.pfs_a_front 0)) ∧
     proximity_to_distance samplePfs 10 "l_gripper" "l_fingertip" PfsPart.pfs_a_front 0 =
       ((Real.sqrt ((samplePfs "l_gripper" "l_fingertip").proximity_a (sensor_index PfsPart.pfs_a_front 0) /
         max 0.1 (10 - (samplePfs "l_gripper" "l_fingertip").proximity_b (sensor_index PfsPart.pfs_a_front 0))) : ℝ) : EReal)) :=
  ⟨by norm_num [samplePfs],
   distance_computation_safe samplePfs 10 "l_gripper" "l_fingertip" PfsPart.pfs_a_front 0
     (by norm_num [samplePfs]) (by norm_num [samplePfs])⟩

/-- Every board value is in `self.parts`. -/
theorem mem_parts (p : PfsPart) : p ∈ parts := by
  cases p <;> simp [parts]

/-- Membership in a conditionally produced output list. -/
theorem mem_ite_nil {α : Type} {c : Prop} [Decidable c] {l : List α} {a : α} :
    (a ∈ if c then l else []) ↔ c ∧ a ∈ l := by
  split <;> simp [*]

/-- Characterization of the outputs of `publish_proximity`. -/
theorem mem_publish_proximity {pfs : PfsParams} {msg : PFSMsg}
    {gripper fingertip : String} {o : Output} :
    o ∈ publish_proximity pfs msg gripper fingertip ↔
      ∃ part, part ∈ parts ∧ ∃ i, i < sensor_num part ∧
        (proximity_to_distance pfs (msg.proximity (sensor_index part i)) gripper fingertip part i
            < (((0.1 : ℝ)) : EReal) ∧
         (o = Output.proximityDistance gripper fingertip part i
            (proximity_to_distance pfs (msg.proximity (sensor_index part i)) gripper fingertip part i) ∨
          o = Output.proximityCloud gripper fingertip part i
            ⟨msg.header.stamp, frameBase gripper fingertip part ++ "_" ++ toString i⟩
            (((0 : ℝ) : EReal), ((0 : ℝ) : EReal),
             proximity_to_distance pfs (msg.proximity (sensor_index part i)) gripper fingertip part i))) := by
  simp only [publish_proximity, List.mem_flatMap, List.mem_range, mem_ite_nil,
    List.mem_cons, List.not_mem_nil, or_false]

/-- Characterization of the outputs of `publish_force`. -/
theorem mem_publish_force {pfs : PfsParams} {msg : PFSMsg}
    {gripper fingertip : String} {o : Output} :
    o ∈ publish_force pfs msg gripper fingertip ↔
      ∃ part, part ∈ parts ∧
        ((∃ i, i < sensor_num part ∧
            Output.force gripper fingertip part i
              ⟨msg.header.stamp, frameBase gripper fingertip part ++ "_" ++ toString i⟩
              (force_at pfs msg gripper fingertip part i) = o) ∨
         o = Output.wrench gripper fingertip part
              ⟨msg.header.stamp, frameBase gripper fingertip part⟩
              (((List.range (sensor_num part)).map fun i =>
                force_at pfs msg gripper fingertip part i / ((sensor_num part : ℕ) : ℝ)).sum)) := by
  simp only [publish_force, board_force_outputs, List.mem_flatMap, List.mem_append,
    List.mem_map, List.mem_range, List.mem_singleton]

/-- The outputs of `cb`: proximity outputs, then force outputs, then the one
imu output. -/
theorem mem_cb {pfs : PfsParams} {msg : PFSMsg} {gripper fingertip : String} {o : Output} :
    o ∈ (cb pfs msg gripper fingertip).2 ↔
      o ∈ publish_proximity pfs msg gripper fingertip ∨
      o ∈ publish_force pfs msg gripper fingertip ∨
      o = Output.imu gripper fingertip PfsPart.pfs_a_front
        ⟨msg.imu.header,
         ⟨msg.imu.angular_velocity.x * 0.001,
          msg.imu.angular_velocity.y * 0.001,
          msg.imu.angular_velocity.z * 0.001⟩,
         ⟨msg.imu.linear_acceleration.x * 0.001,
          msg.imu.linear_acceleration.y * 0.001,
          msg.imu.linear_acceleration.z * 0.001⟩⟩ := by
  simp only [cb, publish_imu, List.mem_append, List.mem_singleton, or_assoc]

/-- C2: for every sensor of every board, the distance scalar and the
single-point cloud with point (0, 0, distance) are both emitted iff the
computed distance is strictly below 0.1; when `proximity_a` is 0 for the
sensor (distance +infinity), neither output is ever emitted. -/
theorem proximity_publish_gate (pfs : PfsParams) (msg : PFSMsg)
    (gripper fingertip : String) (part : PfsPart) (i : ℕ)
    (hi : i < sensor_num part) :
    (Output.proximityDistance gripper fingertip part i
        (proximity_to_distance pfs (msg.proximity (sensor_index part i)) gripper fingertip part i)
        ∈ (cb pfs msg gripper fingertip).2 ↔
      proximity_to_distance pfs (msg.proximity (sensor_index part i)) gripper fingertip part i
        < (((0.1 : ℝ)) : EReal)) ∧
    (Output.proximityCloud gripper fingertip part i
        ⟨msg.header.stamp, frameBase gripper fingertip part ++ "_" ++ toString i⟩
        (((0 : ℝ) : EReal), ((0 : ℝ) : EReal),
         proximity_to_distance pfs (msg.proximity (sensor_index part i)) gripper fingertip part i)
        ∈ (cb pfs msg gripper fingertip).2 ↔
      proximity_to_distance pfs (msg.proximity (sensor_index part i)) gripper fingertip part i
        < (((0.1 : ℝ)) : EReal)) ∧
    ((pfs gripper fingertip).proximity_a (sensor_index part i) = 0 →
      (∀ v, Output.proximityDistance gripper fingertip part i v ∉ (cb pfs msg gripper fingertip).2) ∧
      (∀ hd pt, Output.proximityCloud gripper fingertip part i hd pt ∉ (cb pfs msg gripper fingertip).2)) := by
  refine ⟨⟨?_, ?_⟩, ⟨?_, ?_⟩, ?_⟩
  · intro h
    rw [mem_cb] at h
    rcases h with h | h | h
    · rcases mem_publish_proximity.mp h with ⟨p, hp, j, hj, hlt, heq | heq⟩
      · simp only [Output.proximityDistance.injEq] at heq
        obtain ⟨-, -, rfl, rfl, -⟩ := heq
        exact hlt
      · simp at heq
    · rcases mem_publish_force.mp h with ⟨p, hp, ⟨j, hj, heq⟩ | heq⟩ <;> simp at heq
    · simp at h
  · intro hlt
    rw [mem_cb]
    exact Or.inl (mem_publish_proximity.mpr ⟨part, mem_parts part, i, hi, hlt, Or.inl rfl⟩)
  · intro h
    rw [mem_cb] at h
    rcases h with h | h | h
    · rcases mem_publish_proximity.mp h with ⟨p, hp, j, hj, hlt, heq | heq⟩
      · simp at heq
      · simp only [Output.proximityCloud.injEq] at heq
        obtain ⟨-, -, rfl, rfl, -, -⟩ := heq
        exact hlt
    · rcases mem_publish_force.mp h with ⟨p, hp, ⟨j, hj, heq⟩ | heq⟩ <;> simp at heq
    · simp at h
  · intro hlt
    rw [mem_cb]
    exact Or.inl (mem_publish_proximity.mpr ⟨part, mem_parts part, i, hi, hlt, Or.inr rfl⟩)
  · intro ha
    have hpd : proximity_to_distance pfs (msg.proximity (sensor_index part i))
        gripper fingertip part i = (⊤ : EReal) := by
      simp [proximity_to_distance, ha]
    constructor
    · intro v hv
      rw [mem_cb] at hv
      rcases hv with h | h | h
      · rcases mem_publish_proximity.mp h with ⟨p, hp, j, hj, hlt, heq | heq⟩
        · simp only [Output.proximityDistance.injEq] at heq
          obtain ⟨-, -, rfl, rfl, -⟩ := heq
          rw [hpd] at hlt
          exact not_top_lt hlt
        · simp at heq
      · rcases mem_publish_force.mp h with ⟨p, hp, ⟨j, hj, heq⟩ | heq⟩ <;> simp at heq
      · simp at h
    · intro hd pt hv
      rw [mem_cb] at hv
      rcases hv with h | h | h
      · rcases mem_publish_proximity.mp h with ⟨p, hp, j, hj, hlt, heq | heq⟩
        · simp at heq
        · simp only [Output.proximityCloud.injEq] at heq
          obtain ⟨-, -, rfl, rfl, -, -⟩ := heq
          rw [hpd] at hlt
          exact not_top_lt hlt
      · rcases mem_publish_force.mp h with ⟨p, hp, ⟨j, hj, heq⟩ | heq⟩ <;> simp at heq
      · simp at h

/-- Witness for C2 at a concrete input. -/
theorem proximity_publish_gate_witness :
    0 < sensor_num PfsPart.pfs_a_front ∧
    (Output.proximityDistance "l_gripper" "l_fingertip" PfsPart.pfs_a_front 0
        (proximity_to_distance samplePfs (sampleMsg.proximity (sensor_index PfsPart.pfs_a_front 0))
          "l_gripper" "l_fingertip" PfsPart.pfs_a_front 0)
        ∈ (cb samplePfs sampleMsg "l_gripper" "l_fingertip").2 ↔
      proximity_to_distance samplePfs (sampleMsg.proximity (sensor_index PfsPart.pfs_a_front 0))
          "l_gripper" "l_fingertip" PfsPart.pfs_a_front 0 < (((0.1 : ℝ)) : EReal)) :=
  ⟨by decide,
   (proximity_publish_gate samplePfs sampleMsg "l_gripper" "l_fingertip"
     PfsPart.pfs_a_front 0 (by decide)).1⟩

/-- C3: for every sensor of every board, a per-sensor force wrench is always
emitted (no gating), with force z-component
`0.105 * (raw - preload) / sensitivity` at the sensor's global index; and any
force wrench emitted for that sensor carries exactly that header and value. -/
theorem force_always_emitted (pfs : PfsParams) (msg : PFSMsg)
    (gripper fingertip : String) (part : PfsPart) (i : ℕ)
    (hi : i < sensor_num part) :
    Output.force gripper fingertip part i
      ⟨msg.header.stamp, frameBase gripper fingertip part ++ "_" ++ toString i⟩
      (0.105 * (msg.force (sensor_index part i) - (pfs gripper fingertip).preload (sensor_index part i))
        / (pfs gripper fingertip).sensitivity (sensor_index part i))
      ∈ (cb pfs msg gripper fingertip).2 ∧
    (∀ hd v, Output.force gripper fingertip part i hd v ∈ (cb pfs msg gripper fingertip).2 →
      hd = HeaderMsg.mk msg.header.stamp (frameBase gripper fingertip part ++ "_" ++ toString i) ∧
      v = 0.105 * (msg.force (sensor_index part i) - (pfs gripper fingertip).preload (sensor_index part i))
            / (pfs gripper fingertip).sensitivity (sensor_index part i)) := by
  constructor
  · rw [mem_cb]
    exact Or.inr (Or.inl (mem_publish_force.mpr ⟨part, mem_parts part, Or.inl ⟨i, hi, rfl⟩⟩))
  · intro hd v hv
    rw [mem_cb] at hv
    rcases hv with h | h | h
    · rcases mem_publish_proximity.mp h with ⟨p, hp, j, hj, hlt, heq | heq⟩ <;> simp at heq
    · rcases mem_publish_force.mp h with ⟨p, hp, ⟨j, hj, heq⟩ | heq⟩
      · simp only [Output.force.injEq] at heq
        obtain ⟨-, -, rfl, rfl, rfl, rfl⟩ := heq
        exact ⟨rfl, rfl⟩
      · simp at heq
    · simp at h

/-- Witness for C3 at a concrete input; the sample calibration has
preload 500 and sensitivity 3.7 and the sample raw force reading is 2000,
so the emitted value `0.105 * 1500 / 3.7` is about 42.57. -/
theorem force_always_emitted_witness :
    0 < sensor_num PfsPart.pfs_a_front ∧
    Output.force "l_gripper" "l_fingertip" PfsPart.pfs_a_front 0
      ⟨sampleMsg.header.stamp, frameBase "l_gripper" "l_fingertip" PfsPart.pfs_a_front ++ "_" ++ toString 0⟩
      (0.105 * (sampleMsg.force (sensor_index PfsPart.pfs_a_front 0)
          - (samplePfs "l_gripper" "l_fingertip").preload (sensor_index PfsPart.pfs_a_front 0))
        / (samplePfs "l_gripper" "l_fingertip").sensitivity (sensor_index PfsPart.pfs_a_front 0))
      ∈ (cb samplePfs sampleMsg "l_gripper" "l_fingertip").2 ∧
    |0.105 * (sampleMsg.force (sensor_index PfsPart.pfs_a_front 0)
          - (samplePfs "l_gripper" "l_fingertip").preload (sensor_index PfsPart.pfs_a_front 0))
        / (samplePfs "l_gripper" "l_fingertip").sensitivity (sensor_index PfsPart.pfs_a_front 0)
      - 42.57| < 0.01 :=
  ⟨by decide,
   (force_always_emitted samplePfs sampleMsg "l_gripper" "l_fingertip"
     PfsPart.pfs_a_front 0 (by decide)).1,
   by rw [abs_lt]; norm_num [samplePfs, sampleMsg]⟩

/-- Characterization of the outputs of one board's `publish_force` loop body. -/
theorem mem_board_force_outputs {pfs : PfsParams} {msg : PFSMsg}
    {gripper fingertip : String} {part : PfsPart} {o : Output} :
    o ∈ board_force_outputs pfs msg gripper fingertip part ↔
      ((∃ i, i < sensor_num part ∧
          Output.force gripper fingertip part i
            ⟨msg.header.stamp, frameBase gripper fingertip part ++ "_" ++ toString i⟩
            (force_at pfs msg gripper fingertip part i) = o) ∨
       o = Output.wrench gripper fingertip part
            ⟨msg.header.stamp, frameBase gripper fingertip part⟩
            (((List.range (sensor_num part)).map fun i =>
              force_at pfs msg gripper fingertip part i / ((sensor_num part : ℕ) : ℝ)).sum)) := by
  simp only [board_force_outputs, List.mem_append, List.mem_map, List.mem_range,
    List.mem_singleton]

/-- Filtering `publish_force` for one board's force channels keeps exactly
that board's loop-body outputs, in order. -/
theorem filter_publish_force (pfs : PfsParams) (msg : PFSMsg)
    (gripper fingertip : String) (part : PfsPart) :
    (publish_force pfs msg gripper fingertip).filter (isOfBoard part) =
      board_force_outputs pfs msg gripper fingertip part := by
  have hown : (board_force_outputs pfs msg gripper fingertip part).filter (isOfBoard part) =
      board_force_outputs pfs msg gripper fingertip part := by
    rw [List.filter_eq_self]
    intro o ho
    rcases mem_board_force_outputs.mp ho with ⟨j, hj, rfl⟩ | rfl <;> simp [isOfBoard]
  have hother : ∀ p : PfsPart, p ≠ part →
      (board_force_outputs pfs msg gripper fingertip p).filter (isOfBoard part) = [] := by
    intro p hne
    rw [List.filter_eq_nil_iff]
    intro o ho
    rcases mem_board_force_outputs.mp ho with ⟨j, hj, rfl⟩ | rfl <;> simp [isOfBoard, hne]
  have hexp : publish_force pfs msg gripper fingertip =
      board_force_outputs pfs msg gripper fingertip PfsPart.pfs_a_front ++
      (board_force_outputs pfs msg gripper fingertip PfsPart.pfs_b_top ++
      (board_force_outputs pfs msg gripper fingertip PfsPart.pfs_b_back ++
      (board_force_outputs pfs msg gripper fingertip PfsPart.pfs_b_left ++
      (board_force_outputs pfs msg gripper fingertip PfsPart.pfs_b_right ++ [])))) := rfl
  rw [hexp]
  simp only [List.filter_append, List.filter_nil]
  cases part with
  | pfs_a_front =>
    rw [hown, hother PfsPart.pfs_b_top (by decide), hother PfsPart.pfs_b_back (by decide),
      hother PfsPart.pfs_b_left (by decide), hother PfsPart.pfs_b_right (by decide)]
    simp
  | pfs_b_top =>
    rw [hown, hother PfsPart.pfs_a_front (by decide), hother PfsPart.pfs_b_back (by decide),
      hother PfsPart.pfs_b_left (by decide), hother PfsPart.pfs_b_right (by decide)]
    simp
  | pfs_b_back =>
    rw [hown, hother PfsPart.pfs_a_front (by decide), hother PfsPart.pfs_b_top (by decide),
      hother PfsPart.pfs_b_left (by decide), hother PfsPart.pfs_b_right (by decide)]
    simp
  | pfs_b_left =>
    rw [hown, hother PfsPart.pfs_a_front (by decide), hother PfsPart.pfs_b_top (by decide),
      hother PfsPart.pfs_b_back (by decide), hother PfsPart.pfs_b_right (by decide)]
    simp
  | pfs_b_right =>
    rw [hown, hother PfsPart.pfs_a_front (by decide), hother PfsPart.pfs_b_top (by decide),
      hother PfsPart.pfs_b_back (by decide), hother PfsPart.pfs_b_left (by decide)]
    simp

/-- Division by the sensor count distributes out of the loop accumulation. -/
theorem sum_map_div_eq (l : List ℕ) (f : ℕ → ℝ) (c : ℝ) :
    (l.map fun i => f i / c).sum = (l.map f).sum / c := by
  induction l with
  | nil => simp
  | cons a t ih => simp [ih, add_div]

/-- C4: for every board, the board's force-channel outputs are exactly its
per-sensor wrenches, in sensor order, followed by exactly one board-level
wrench whose force z-component is the sum of the board's per-sensor forces
divided by the board's sensor count and whose frame id is the board-level
identity (no local sensor index suffix). -/
theorem board_wrench_spec (pfs : PfsParams) (msg : PFSMsg)
    (gripper fingertip : String) (part : PfsPart) :
    ((cb pfs msg gripper fingertip).2.filter (isOfBoard part)) =
      ((List.range (sensor_num part)).map fun i =>
        Output.force gripper fingertip part i
          ⟨msg.header.stamp, frameBase gripper fingertip part ++ "_" ++ toString i⟩
          (force_at pfs msg gripper fingertip part i))
      ++ [Output.wrench gripper fingertip part
            ⟨msg.header.stamp, frameBase gripper fingertip part⟩
            ((((List.range (sensor_num part)).map fun i =>
              force_at pfs msg gripper fingertip part i).sum) / ((sensor_num part : ℕ) : ℝ))] := by
  have h1 : (cb pfs msg gripper fingertip).2 =
      publish_proximity pfs msg gripper fingertip ++
      publish_force pfs msg gripper fingertip ++
      (publish_imu msg gripper fingertip).2 := rfl
  have hprox : (publish_proximity pfs msg gripper fingertip).filter (isOfBoard part) = [] := by
    rw [List.filter_eq_nil_iff]
    intro o ho
    rcases mem_publish_proximity.mp ho with ⟨p, hp, j, hj, hlt, rfl | rfl⟩ <;> simp [isOfBoard]
  have himu : ((publish_imu msg gripper fingertip).2).filter (isOfBoard part) = [] := by
    simp [publish_imu, isOfBoard]
  rw [h1, List.filter_append, List.filter_append, hprox, himu, filter_publish_force]
  simp [board_force_outputs, sum_map_div_eq]

/-- C6: exactly one IMU message is emitted per raw sample, only under the
front-board identity, and its angular velocity and linear acceleration are
the raw vectors multiplied componentwise by 0.001. -/
theorem imu_single_emission (pfs : PfsParams) (msg : PFSMsg)
    (gripper fingertip : String) :
    ((cb pfs msg gripper fingertip).2.filter isImuOut) =
      [Output.imu gripper fingertip PfsPart.pfs_a_front
        ⟨msg.imu.header,
         ⟨msg.imu.angular_velocity.x * 0.001,
          msg.imu.angular_velocity.y * 0.001,
          msg.imu.angular_velocity.z * 0.001⟩,
         ⟨msg.imu.linear_acceleration.x * 0.001,
          msg.imu.linear_acceleration.y * 0.001,
          msg.imu.linear_acceleration.z * 0.001⟩⟩] := by
  have h1 : (cb pfs msg gripper fingertip).2 =
      publish_proximity pfs msg gripper fingertip ++
      publish_force pfs msg gripper fingertip ++
      (publish_imu msg gripper fingertip).2 := rfl
  have hprox : (publish_proximity pfs msg gripper fingertip).filter isImuOut = [] := by
    rw [List.filter_eq_nil_iff]
    intro o ho
    rcases mem_publish_proximity.mp ho with ⟨p, hp, j, hj, hlt, rfl | rfl⟩ <;> simp [isImuOut]
  have hforce : (publish_force pfs msg gripper fingertip).filter isImuOut = [] := by
    rw [List.filter_eq_nil_iff]
    intro o ho
    rcases mem_publish_force.mp ho with ⟨p, hp, ⟨j, hj, rfl⟩ | rfl⟩ <;> simp [isImuOut]
  rw [h1, List.filter_append, List.filter_append, hprox, hforce]
  simp [publish_imu, isImuOut]

/-- C10: processing a sample mutates the sample itself: afterwards the input
message's imu vectors hold the 0.001-scaled values (so processing the same
message object again scales them a second time), while the proximity and
force fields — and both headers — are unchanged. -/
theorem cb_mutates_imu_in_place (pfs : PfsParams) (msg : PFSMsg)
    (gripper fingertip : String) :
    (cb pfs msg gripper fingertip).1.imu.angular_velocity =
      ⟨msg.imu.angular_velocity.x * 0.001,
       msg.imu.angular_velocity.y * 0.001,
       msg.imu.angular_velocity.z * 0.001⟩ ∧
    (cb pfs msg gripper fingertip).1.imu.linear_acceleration =
      ⟨msg.imu.linear_acceleration.x * 0.001,
       msg.imu.linear_acceleration.y * 0.001,
       msg.imu.linear_acceleration.z * 0.001⟩ ∧
    (cb pfs msg gripper fingertip).1.imu.header = msg.imu.header ∧
    (cb pfs msg gripper fingertip).1.proximity = msg.proximity ∧
    (cb pfs msg gripper fingertip).1.force = msg.force ∧
    (cb pfs msg gripper fingertip).1.header = msg.header ∧
    (cb pfs (cb pfs msg gripper fingertip).1 gripper fingertip).1.imu.angular_velocity =
      ⟨msg.imu.angular_velocity.x * 0.001 * 0.001,
       msg.imu.angular_velocity.y * 0.001 * 0.001,
       msg.imu.angular_velocity.z * 0.001 * 0.001⟩ ∧
    (cb pfs (cb pfs msg gripper fingertip).1 gripper fingertip).1.imu.linear_acceleration =
      ⟨msg.imu.linear_acceleration.x * 0.001 * 0.001,
       msg.imu.linear_acceleration.y * 0.001 * 0.001,
       msg.imu.linear_acceleration.z * 0.001 * 0.001⟩ :=
  ⟨rfl, rfl, rfl, rfl, rfl, rfl, rfl, rfl⟩

/-- C7 counterexample: not every emitted output carries the sample's
timestamp. At a concrete input whose body stamp is 7 but whose embedded imu
header stamp is 1, the published imu message carries stamp 1; moreover the
distance scalar (a bare `std_msgs/Float32`) carries no timestamp at all. -/
theorem output_stamp_claim_cex :
    (Output.proximityDistance "l_gripper" "l_fingertip" PfsPart.pfs_a_front 0
        (proximity_to_distance samplePfs (sampleMsg.proximity (sensor_index PfsPart.pfs_a_front 0))
          "l_gripper" "l_fingertip" PfsPart.pfs_a_front 0)
        ∈ (cb samplePfs sampleMsg "l_gripper" "l_fingertip").2 ∧
     stampOf (Output.proximityDistance "l_gripper" "l_fingertip" PfsPart.pfs_a_front 0
        (proximity_to_distance samplePfs (sampleMsg.proximity (sensor_index PfsPart.pfs_a_front 0))
          "l_gripper" "l_fingertip" PfsPart.pfs_a_front 0)) = none) ∧
    ¬ (∀ o ∈ (cb samplePfs sampleMsg "l_gripper" "l_fingertip").2,
        stampOf o = some sampleMsg.header.stamp) := by
  have hgate : proximity_to_distance samplePfs
      (sampleMsg.proximity (sensor_index PfsPart.pfs_a_front 0))
      "l_gripper" "l_fingertip" PfsPart.pfs_a_front 0 < (((0.1 : ℝ)) : EReal) := by
    have h1 : proximity_to_distance samplePfs
        (sampleMsg.proximity (sensor_index PfsPart.pfs_a_front 0))
        "l_gripper" "l_fingertip" PfsPart.pfs_a_front 0 =
        ((Real.sqrt ((0.01 : ℝ) / 5) : ℝ) : EReal) := by
      rw [proximity_to_distance]
      norm_num [samplePfs, sampleMsg, sensor_index]
    rw [h1, EReal.coe_lt_coe_iff, show (0.01 : ℝ) / 5 = 0.002 by norm_num,
      Real.sqrt_lt' (by norm_num : (0 : ℝ) < 0.1)]
    norm_num
  refine ⟨⟨?_, rfl⟩, ?_⟩
  · exact mem_cb.mpr (Or.inl (mem_publish_proximity.mpr
      ⟨PfsPart.pfs_a_front, mem_parts _, 0, by decide, hgate, Or.inl rfl⟩))
  · intro h
    have hmem : Output.imu "l_gripper" "l_fingertip" PfsPart.pfs_a_front
        ⟨sampleMsg.imu.header,
         ⟨sampleMsg.imu.angular_velocity.x * 0.001,
          sampleMsg.imu.angular_velocity.y * 0.001,
          sampleMsg.imu.angular_velocity.z * 0.001⟩,
         ⟨sampleMsg.imu.linear_acceleration.x * 0.001,
          sampleMsg.imu.linear_acceleration.y * 0.001,
          sampleMsg.imu.linear_acceleration.z * 0.001⟩⟩
        ∈ (cb samplePfs sampleMsg "l_gripper" "l_fingertip").2 :=
      mem_cb.mpr (Or.inr (Or.inr rfl))
    have hbad := h _ hmem
    simp [stampOf, sampleMsg] at hbad

/-- C7 amended: every emitted point cloud, per-sensor wrench and board wrench
carries the sample's timestamp; the distance scalar carries no timestamp (its
ROS type has no header), and the imu message carries the raw sample's embedded
imu header stamp, which the code never rewrites. -/
theorem output_stamp_amended (pfs : PfsParams) (msg : PFSMsg)
    (gripper fingertip : String) :
    ∀ o ∈ (cb pfs msg gripper fingertip).2, stampOf o = expectedStamp msg o := by
  intro o ho
  rcases mem_cb.mp ho with h | h | h
  · rcases mem_publish_proximity.mp h with ⟨p, hp, j, hj, hlt, rfl | rfl⟩ <;> rfl
  · rcases mem_publish_force.mp h with ⟨p, hp, ⟨j, hj, rfl⟩ | rfl⟩ <;> rfl
  · subst h; rfl

/-- Witness for the amended C7 at a concrete input (the front board wrench). -/
theorem output_stamp_amended_witness :
    Output.wrench "l_gripper" "l_fingertip" PfsPart.pfs_a_front
      ⟨sampleMsg.header.stamp, frameBase "l_gripper" "l_fingertip" PfsPart.pfs_a_front⟩
      (((List.range (sensor_num PfsPart.pfs_a_front)).map fun i =>
        force_at samplePfs sampleMsg "l_gripper" "l_fingertip" PfsPart.pfs_a_front i /
          ((sensor_num PfsPart.pfs_a_front : ℕ) : ℝ)).sum)
      ∈ (cb samplePfs sampleMsg "l_gripper" "l_fingertip").2 ∧
    stampOf (Output.wrench "l_gripper" "l_fingertip" PfsPart.pfs_a_front
      ⟨sampleMsg.header.stamp, frameBase "l_gripper" "l_fingertip" PfsPart.pfs_a_front⟩
      (((List.range (sensor_num PfsPart.pfs_a_front)).map fun i =>
        force_at samplePfs sampleMsg "l_gripper" "l_fingertip" PfsPart.pfs_a_front i /
          ((sensor_num PfsPart.pfs_a_front : ℕ) : ℝ)).sum)) =
    expectedStamp sampleMsg (Output.wrench "l_gripper" "l_fingertip" PfsPart.pfs_a_front
      ⟨sampleMsg.header.stamp, frameBase "l_gripper" "l_fingertip" PfsPart.pfs_a_front⟩
      (((List.range (sensor_num PfsPart.pfs_a_front)).map fun i =>
        force_at samplePfs sampleMsg "l_gripper" "l_fingertip" PfsPart.pfs_a_front i /
          ((sensor_num PfsPart.pfs_a_front : ℕ) : ℝ)).sum)) := by
  have hmem : Output.wrench "l_gripper" "l_fingertip" PfsPart.pfs_a_front
      ⟨sampleMsg.header.stamp, frameBase "l_gripper" "l_fingertip" PfsPart.pfs_a_front⟩
      (((List.range (sensor_num PfsPart.pfs_a_front)).map fun i =>
        force_at samplePfs sampleMsg "l_gripper" "l_fingertip" PfsPart.pfs_a_front i /
          ((sensor_num PfsPart.pfs_a_front : ℕ) : ℝ)).sum)
      ∈ (cb samplePfs sampleMsg "l_gripper" "l_fingertip").2 :=
    mem_cb.mpr (Or.inr (Or.inl (mem_publish_force.mpr
      ⟨PfsPart.pfs_a_front, mem_parts _, Or.inr rfl⟩)))
  exact ⟨hmem, output_stamp_amended samplePfs sampleMsg "l_gripper" "l_fingertip" _ hmem⟩

/-- C9: a name is a registered output channel iff it has the form
`/pfs/<gripper>/<fingertip>/<board>/<kind>` for the board-level kinds
(wrench, imu) — with imu only for the front board — or
`/pfs/<gripper>/<fingertip>/<board>/<kind>/<local index>` for the per-sensor
kinds (proximity_distance, proximity_cloud, force) with the local index below
the board's sensor count. -/
theorem registered_channels_form (t : String) :
    t ∈ registeredChannels ↔
      ∃ g, g ∈ grippers ∧ ∃ f, f ∈ fingertips ∧ ∃ p : PfsPart,
        ((∃ k, k ∈ (["wrench", "imu"] : List String) ∧
            (k = "imu" → p = PfsPart.pfs_a_front) ∧ t = topicBoard g f p k) ∨
         (∃ k, k ∈ (["proximity_distance", "proximity_cloud", "force"] : List String) ∧
            ∃ i, i < sensor_num p ∧ t = topicSensor g f p k i)) := by
  constructor
  · intro ht
    simp only [registeredChannels, List.mem_flatMap] at ht
    obtain ⟨g, hg, f, hf, p, hp, s, hs, ht⟩ := ht
    refine ⟨g, hg, f, hf, p, ?_⟩
    have hs' : s = "proximity_distance" ∨ s = "proximity_cloud" ∨ s = "wrench" ∨
        s = "force" ∨ s = "imu" := by simpa [sensorKinds] using hs
    rcases hs' with rfl | rfl | rfl | rfl | rfl
    · rw [if_neg (fun hA => absurd hA.1 (by decide)), if_neg (by decide),
        if_pos (by decide)] at ht
      simp only [List.nil_append, List.mem_map, List.mem_range] at ht
      obtain ⟨i, hi, rfl⟩ := ht
      exact Or.inr ⟨"proximity_distance", by decide, i, hi, rfl⟩
    · rw [if_neg (fun hA => absurd hA.1 (by decide)), if_neg (by decide),
        if_pos (by decide)] at ht
      simp only [List.nil_append, List.mem_map, List.mem_range] at ht
      obtain ⟨i, hi, rfl⟩ := ht
      exact Or.inr ⟨"proximity_cloud", by decide, i, hi, rfl⟩
    · rw [if_neg (fun hA => absurd hA.1 (by decide)), if_pos (by decide),
        if_neg (by decide)] at ht
      simp only [List.append_nil, List.mem_singleton] at ht
      subst ht
      exact Or.inl ⟨"wrench", by decide, fun hk => absurd hk (by decide), rfl⟩
    · rw [if_neg (fun hA => absurd hA.1 (by decide)), if_neg (by decide),
        if_pos (by decide)] at ht
      simp only [List.nil_append, List.mem_map, List.mem_range] at ht
      obtain ⟨i, hi, rfl⟩ := ht
      exact Or.inr ⟨"force", by decide, i, hi, rfl⟩
    · by_cases hp' : p = PfsPart.pfs_a_front
      · subst hp'
        rw [if_neg (fun hA => hA.2 rfl), if_pos (by decide), if_neg (by decide)] at ht
        simp only [List.append_nil, List.mem_singleton] at ht
        subst ht
        exact Or.inl ⟨"imu", by decide, fun _ => rfl, rfl⟩
      · rw [if_pos ⟨rfl, hp'⟩] at ht
        simp at ht
  · rintro ⟨g, hg, f, hf, p, ⟨k, hk, himp, rfl⟩ | ⟨k, hk, i, hi, rfl⟩⟩
    · have hk' : k = "wrench" ∨ k = "imu" := by simpa using hk
      rcases hk' with rfl | rfl
      · simp only [registeredChannels, List.mem_flatMap]
        refine ⟨g, hg, f, hf, p, mem_parts p, "wrench", by decide, ?_⟩
        rw [if_neg (fun hA => absurd hA.1 (by decide)), if_pos (by decide), if_neg (by decide)]
        simp
      · have hp' := himp rfl
        subst hp'
        simp only [registeredChannels, List.mem_flatMap]
        refine ⟨g, hg, f, hf, PfsPart.pfs_a_front, mem_parts _, "imu", by decide, ?_⟩
        rw [if_neg (fun hA => hA.2 rfl), if_pos (by decide), if_neg (by decide)]
        simp
    · have hk' : k = "proximity_distance" ∨ k = "proximity_cloud" ∨ k = "force" := by
        simpa using hk
      simp only [registeredChannels, List.mem_flatMap]
      rcases hk' with rfl | rfl | rfl
      · refine ⟨g, hg, f, hf, p, mem_parts p, "proximity_distance", by decide, ?_⟩
        rw [if_neg (fun hA => absurd hA.1 (by decide)), if_neg (by decide), if_pos (by decide)]
        simpa using ⟨i, hi, rfl⟩
      · refine ⟨g, hg, f, hf, p, mem_parts p, "proximity_cloud", by decide, ?_⟩
        rw [if_neg (fun hA => absurd hA.1 (by decide)), if_neg (by decide), if_pos (by decide)]
        simpa using ⟨i, hi, rfl⟩
      · refine ⟨g, hg, f, hf, p, mem_parts p, "force", by decide, ?_⟩
        rw [if_neg (fun hA => absurd hA.1 (by decide)), if_neg (by decide), if_pos (by decide)]
        simpa using ⟨i, hi, rfl⟩
